/-
  Verification of the OSPAC policy-data generation pipeline.

  Shallow embedding of the pipeline code:
    - LicenseAnalyzer (classification fallback, JSON extraction, analysis,
      compatibility-rule derivation, bounded-concurrency batch model)
    - PolicyDataGenerator (compatibility matrix, obligation database,
      master database, validation report)

  Python dicts with optional keys are modelled as structures of Option
  fields (key absent = none); dict-valued keys are typed structures, so a
  present dict is non-empty.  The AI backend and the JSON library are
  external collaborators and are modelled as parameters.
-/
import Mathlib

/-- Permissions block of a classification record. -/
structure Permissions where
  commercial_use : Bool
  distribution : Bool
  modification : Bool
  patent_grant : Bool
  private_use : Bool
deriving DecidableEq, Repr

/-- Conditions block of a classification record. -/
structure Conditions where
  disclose_source : Bool
  include_license : Bool
  include_copyright : Bool
  include_notice : Bool
  state_changes : Bool
  same_license : Bool
  network_use_disclosure : Bool
deriving DecidableEq, Repr

/-- Limitations block of a classification record. -/
structure Limitations where
  liability : Bool
  warranty : Bool
  trademark_use : Bool
deriving DecidableEq, Repr

/-- Inline compatibility summary of a classification record. -/
structure CompatInfo where
  can_combine_with_permissive : Bool
  can_combine_with_weak_copyleft : Bool
  can_combine_with_strong_copyleft : Bool
  static_linking_restrictions : String
  dynamic_linking_restrictions : String
deriving DecidableEq, Repr

/-- Per-dimension linking rules of a compatibility rule set. -/
structure LinkRules where
  compatible_with : List String
  incompatible_with : List String
  requires_review : List String
deriving DecidableEq, Repr

/-- Distribution rules of a compatibility rule set. -/
structure DistRules where
  can_distribute_with : List String
  cannot_distribute_with : List String
  special_requirements : List String
deriving DecidableEq, Repr

/-- A compatibility rule set as produced by the rule deriver. -/
structure CompatRules where
  static_linking : LinkRules
  dynamic_linking : LinkRules
  distribution : DistRules
  contamination_effect : String
  notes : String
deriving DecidableEq, Repr

/-- Registry provenance flags carried in a record's spdx_data entry. -/
structure SpdxFlags where
  isOsiApproved : Option Bool
  isFsfLibre : Option Bool
  isDeprecatedLicenseId : Option Bool
deriving DecidableEq, Repr

/-- A classification record as passed around the pipeline: a Python dict
whose keys may be absent (none = key absent). -/
structure RawRecord where
  license_id : Option String
  category : Option String
  permissions : Option Permissions
  conditions : Option Conditions
  limitations : Option Limitations
  compatibility : Option CompatInfo
  obligations : Option (List String)
  key_requirements : Option (List String)
  compatibility_rules : Option CompatRules
  name : Option String
  spdx_data : Option SpdxFlags
deriving DecidableEq, Repr

/-- The record with every key absent, as parsing an empty JSON object
yields. -/
def emptyRecord : RawRecord :=
  { license_id := none, category := none, permissions := none,
    conditions := none, limitations := none, compatibility := none,
    obligations := none, key_requirements := none,
    compatibility_rules := none, name := none, spdx_data := none }

/-- Whether the character list starts with the given pattern. -/
def listStartsWith : List Char → List Char → Bool
  | _, [] => true
  | [], _ :: _ => false
  | a :: as, b :: bs => a == b && listStartsWith as bs

/-- Whether the pattern occurs as a contiguous run in the character
list. -/
def listContainsRun : List Char → List Char → Bool
  | [], needle => needle.isEmpty
  | hay@(_ :: tl), needle => listStartsWith hay needle || listContainsRun tl needle

/-- Python's substring membership test: `needle in hay`. -/
def pyIn (needle hay : String) : Bool :=
  listContainsRun hay.toList needle.toList

/-- Default permissions of the fallback analysis. -/
def defaultPermissions : Permissions :=
  { commercial_use := true, distribution := true, modification := true,
    patent_grant := false, private_use := true }

/-- Default conditions of the fallback analysis. -/
def defaultConditions : Conditions :=
  { disclose_source := false, include_license := true,
    include_copyright := true, include_notice := false,
    state_changes := false, same_license := false,
    network_use_disclosure := false }

/-- Default limitations of the fallback analysis. -/
def defaultLimitations : Limitations :=
  { liability := true, warranty := true, trademark_use := false }

/-- Default inline compatibility summary of the fallback analysis. -/
def defaultCompatInfo : CompatInfo :=
  { can_combine_with_permissive := true,
    can_combine_with_weak_copyleft := true,
    can_combine_with_strong_copyleft := false,
    static_linking_restrictions := "none",
    dynamic_linking_restrictions := "none" }

/-- The default analysis structure built at the top of
LicenseAnalyzer._get_fallback_analysis. -/
def baseAnalysis (license_id : String) : RawRecord :=
  { license_id := some license_id,
    category := some "permissive",
    permissions := some defaultPermissions,
    conditions := some defaultConditions,
    limitations := some defaultLimitations,
    compatibility := some defaultCompatInfo,
    obligations := some ["Include license text", "Include copyright notice"],
    key_requirements := some ["Attribution required"],
    compatibility_rules := none, name := none, spdx_data := none }

/-- LicenseAnalyzer._get_fallback_analysis: deterministic analysis from the
license id alone.  The branch chain mirrors the Python if/elif order:
GPL, LGPL, AGPL, Apache, MIT/BSD/ISC, CC0/Unlicense, default. -/
def get_fallback_analysis (license_id : String) : RawRecord :=
  let analysis := baseAnalysis license_id
  if pyIn "GPL" license_id then
    { analysis with
      category := some "copyleft_strong",
      conditions := some { defaultConditions with
        disclose_source := true, same_license := true },
      compatibility := some { defaultCompatInfo with
        can_combine_with_strong_copyleft := true,
        can_combine_with_permissive := false,
        static_linking_restrictions := "strong" },
      obligations := some ["Disclose source code", "Include license text",
        "State changes", "Use same license for derivatives"] }
  else if pyIn "LGPL" license_id then
    { analysis with
      category := some "copyleft_weak",
      conditions := some { defaultConditions with disclose_source := true },
      compatibility := some { defaultCompatInfo with
        static_linking_restrictions := "weak" },
      obligations := some ["Disclose source of LGPL components",
        "Allow relinking", "Include license text"] }
  else if pyIn "AGPL" license_id then
    { analysis with
      category := some "copyleft_strong",
      conditions := some { defaultConditions with
        disclose_source := true, same_license := true,
        network_use_disclosure := true },
      compatibility := some { defaultCompatInfo with
        static_linking_restrictions := "strong" } }
  else if pyIn "Apache" license_id then
    { analysis with
      category := some "permissive",
      permissions := some { defaultPermissions with patent_grant := true },
      conditions := some { defaultConditions with
        include_notice := true, state_changes := true } }
  else if pyIn "MIT" license_id || pyIn "BSD" license_id
      || pyIn "ISC" license_id then
    { analysis with category := some "permissive" }
  else if pyIn "CC0" license_id || pyIn "Unlicense" license_id then
    { analysis with
      category := some "public_domain",
      conditions := some { defaultConditions with
        include_license := false, include_copyright := false },
      obligations := some [] }
  else
    analysis

/-- Outcome of one query to the optional AI backend: the call may raise,
or return free text. -/
inductive QueryResult where
  | failure
  | reply (text : String)
deriving DecidableEq, Repr

/-- Behaviour of the backend on the analysis prompt.  The real code builds
a prompt from the license id and the first 3000 characters of the text and
awaits the agent; the backend is an external collaborator, so it is
modelled as an arbitrary function of those two inputs. -/
def AnalyzeAgent : Type := String → String → QueryResult

/-- Behaviour of the backend on the rules prompt, a function of the
license id and the category string interpolated into that prompt. -/
def RulesAgent : Type := String → String → QueryResult

/-- The opening-brace character, written by code point. -/
def openBraceChar : Char := Char.ofNat 123

/-- The closing-brace character, written by code point. -/
def closeBraceChar : Char := Char.ofNat 125

/-- Index of the first occurrence of a character, or none:
Python str.find (with -1 mapped to none). -/
def firstIdx (cs : List Char) (c : Char) : Option Nat :=
  List.findIdx? (fun a => a == c) cs

/-- Index of the last occurrence of a character, or none:
Python str.rfind (with -1 mapped to none). -/
def lastIdx (cs : List Char) (c : Char) : Option Nat :=
  (firstIdx cs.reverse c).map (fun i => cs.length - 1 - i)

/-- JSON extraction used on every backend reply: take the substring from
the first opening brace to the last closing brace inclusive; none when no
such slice exists (json_start < 0 or json_end <= json_start). -/
def extractJson (response : String) : Option String :=
  let cs := response.toList
  match firstIdx cs openBraceChar, lastIdx cs closeBraceChar with
  | some json_start, some rclose =>
      let json_end := rclose + 1
      if json_start < json_end then
        some (String.mk ((cs.drop json_start).take (json_end - json_start)))
      else none
  | _, _ => none

/-- The json.loads library call, an external collaborator: parses a string
into a record (a dict with optional keys) or fails. -/
def JsonLoads : Type := String → Option RawRecord

/-- LicenseAnalyzer.analyze_license: with no agent, return the fallback
analysis; otherwise query the backend, extract the first-brace/last-brace
slice of the reply and parse it, degrading to the fallback analysis on
query failure, missing slice, or parse failure. -/
def analyze_license (agent : Option AnalyzeAgent) (loads : JsonLoads)
    (license_id license_text : String) : RawRecord :=
  match agent with
  | none => get_fallback_analysis license_id
  | some query =>
    match query license_id (license_text.take 3000) with
    | QueryResult.failure => get_fallback_analysis license_id
    | QueryResult.reply response =>
      match extractJson response with
      | none => get_fallback_analysis license_id
      | some json_str =>
        match loads json_str with
        | none => get_fallback_analysis license_id
        | some analysis => analysis

/-- LicenseAnalyzer._get_default_compatibility_rules: canned rule blocks
chosen by the analysis's category (default "permissive" when absent); the
copyleft blocks also embed the license id itself. -/
def get_default_compatibility_rules (license_id : String)
    (analysis : RawRecord) : CompatRules :=
  let category := analysis.category.getD "permissive"
  if category = "permissive" then
    { static_linking :=
        { compatible_with := ["category:any"],
          incompatible_with := [],
          requires_review := [] },
      dynamic_linking :=
        { compatible_with := ["category:any"],
          incompatible_with := [],
          requires_review := [] },
      distribution :=
        { can_distribute_with := ["category:any"],
          cannot_distribute_with := [],
          special_requirements := ["Include license and copyright notice"] },
      contamination_effect := "none",
      notes := "Permissive license with minimal restrictions" }
  else if category = "copyleft_strong" then
    { static_linking :=
        { compatible_with := [license_id, "category:copyleft_strong"],
          incompatible_with := ["category:permissive", "category:proprietary"],
          requires_review := ["category:copyleft_weak"] },
      dynamic_linking :=
        { compatible_with := ["category:any"],
          incompatible_with := [],
          requires_review := ["category:proprietary"] },
      distribution :=
        { can_distribute_with := [license_id],
          cannot_distribute_with := ["category:proprietary"],
          special_requirements := ["Source code must be provided",
                                   "Same license required"] },
      contamination_effect := "full",
      notes := "Strong copyleft with viral effect" }
  else if category = "copyleft_weak" then
    { static_linking :=
        { compatible_with := ["category:permissive", license_id],
          incompatible_with := [],
          requires_review := ["category:copyleft_strong"] },
      dynamic_linking :=
        { compatible_with := ["category:any"],
          incompatible_with := [],
          requires_review := [] },
      distribution :=
        { can_distribute_with := ["category:any"],
          cannot_distribute_with := [],
          special_requirements := ["Allow relinking", "Provide LGPL source"] },
      contamination_effect := "module",
      notes := "Weak copyleft affecting only the library itself" }
  else
    { static_linking :=
        { compatible_with := ["category:any"],
          incompatible_with := [],
          requires_review := [] },
      dynamic_linking :=
        { compatible_with := ["category:any"],
          incompatible_with := [],
          requires_review := [] },
      distribution :=
        { can_distribute_with := ["category:any"],
          cannot_distribute_with := [],
          special_requirements := [] },
      contamination_effect := "none",
      notes := "Default compatibility rules" }

/-- The json.loads call on the rules reply, shaped as a rule set. -/
def RulesLoads : Type := String → Option CompatRules

/-- LicenseAnalyzer.extract_compatibility_rules: same dual-path structure
as analyze_license; the prompt interpolates the license id and the
analysis's category (default "unknown" when absent). -/
def extract_compatibility_rules (agent : Option RulesAgent)
    (loads : RulesLoads) (license_id : String) (analysis : RawRecord) :
    CompatRules :=
  match agent with
  | none => get_default_compatibility_rules license_id analysis
  | some query =>
    match query license_id (analysis.category.getD "unknown") with
    | QueryResult.failure => get_default_compatibility_rules license_id analysis
    | QueryResult.reply response =>
      match extractJson response with
      | none => get_default_compatibility_rules license_id analysis
      | some json_str =>
        match loads json_str with
        | none => get_default_compatibility_rules license_id analysis
        | some rules => rules

/-- One cell of the compatibility matrix. -/
structure CompatVerdict where
  static_linking : String
  dynamic_linking : String
  distribution : String
deriving DecidableEq, Repr

/-- PolicyDataGenerator._check_license_compatibility: the category-pair
rules, first matching clause wins, all-unknown default. -/
def check_license_compatibility (license1 license2 : RawRecord) :
    CompatVerdict :=
  let cat1 := license1.category.getD "permissive"
  let cat2 := license2.category.getD "permissive"
  if cat1 = "permissive" ∧ cat2 = "permissive" then
    { static_linking := "compatible", dynamic_linking := "compatible",
      distribution := "compatible" }
  else if cat1 = "copyleft_strong" ∨ cat2 = "copyleft_strong" then
    if cat1 = cat2 then
      { static_linking := "compatible", dynamic_linking := "compatible",
        distribution := "compatible" }
    else
      { static_linking := "incompatible",
        dynamic_linking := "review_required",
        distribution := "incompatible" }
  else if cat1 = "copyleft_weak" ∨ cat2 = "copyleft_weak" then
    { static_linking := "review_required", dynamic_linking := "compatible",
      distribution := "compatible" }
  else
    { static_linking := "unknown", dynamic_linking := "unknown",
      distribution := "unknown" }

/-- Truthy license_id of a record: the id when present and non-empty,
none otherwise (the `if not id: continue` guard). -/
def recId (l : RawRecord) : Option String :=
  match l.license_id with
  | none => none
  | some i => if i = "" then none else some i

/-- Lookup in an association list built by insertion into a Python dict:
for a duplicated key the last assignment wins. -/
def dictLookup (m : List (String × α)) (k : String) : Option α :=
  m.reverse.lookup k

/-- Association list with one entry per record with truthy license_id,
keyed by that id. -/
def perIdEntries (f : RawRecord → α) (licenses : List RawRecord) :
    List (String × α) :=
  licenses.filterMap (fun l => (recId l).map (fun i => (i, f l)))

/-- The compatibility matrix dataset (timestamp and version omitted as
pure serialization metadata). -/
structure CompatMatrix where
  total_licenses : Nat
  compatibility : List (String × List (String × CompatVerdict))
deriving Repr

/-- PolicyDataGenerator._generate_compatibility_matrix: total_licenses is
the length of the whole input; one row per record with truthy id, holding
one verdict per record with truthy id. -/
def generate_compatibility_matrix (licenses : List RawRecord) :
    CompatMatrix :=
  { total_licenses := licenses.length,
    compatibility := perIdEntries (fun l1 =>
      perIdEntries (fun l2 => check_license_compatibility l1 l2) licenses)
      licenses }

/-- One entry of the obligation database. -/
structure ObligationEntry where
  obligations : List String
  key_requirements : List String
  conditions : Option Conditions
  attribution_required : Bool
  source_disclosure_required : Bool
  notice_required : Bool
deriving DecidableEq, Repr

/-- The obligation database (timestamp and version omitted). -/
structure ObligationDatabase where
  licenses : List (String × ObligationEntry)
deriving Repr

/-- A conditions field read through two chained gets:
conditions.get(flag, False) with conditions itself defaulting to the empty
dict. -/
def condFlag (l : RawRecord) (flag : Conditions → Bool) : Bool :=
  match l.conditions with
  | none => false
  | some c => flag c

/-- PolicyDataGenerator._generate_obligation_database: one entry per
record with truthy license_id. -/
def generate_obligation_database (licenses : List RawRecord) :
    ObligationDatabase :=
  { licenses := perIdEntries (fun l =>
      { obligations := l.obligations.getD [],
        key_requirements := l.key_requirements.getD [],
        conditions := l.conditions,
        attribution_required := condFlag l Conditions.include_copyright,
        source_disclosure_required := condFlag l Conditions.disclose_source,
        notice_required := condFlag l Conditions.include_notice }) licenses }

/-- One entry of the master database. -/
structure MasterEntry where
  id : String
  name : String
  category : Option String
  permissions : Option Permissions
  conditions : Option Conditions
  limitations : Option Limitations
  obligations : List String
  compatibility_rules : Option CompatRules
  is_osi_approved : Bool
  is_fsf_libre : Bool
  is_deprecated : Bool
deriving DecidableEq, Repr

/-- The master database (timestamp and version omitted). -/
structure MasterDatabase where
  total_licenses : Nat
  licenses : List (String × MasterEntry)
deriving Repr

/-- A provenance flag read through spdx_data.get(...).get(flag, False). -/
def spdxFlag (l : RawRecord) (flag : SpdxFlags → Option Bool) : Bool :=
  match l.spdx_data with
  | none => false
  | some s => (flag s).getD false

/-- PolicyDataGenerator._generate_master_database: one entry per record
with truthy license_id; the obligations field is looked up in the
obligation database built beforehand. -/
def generate_master_database (licenses : List RawRecord)
    (obligation_database : ObligationDatabase) : MasterDatabase :=
  { total_licenses := licenses.length,
    licenses := perIdEntries (fun l =>
      let license_id := (recId l).getD ""
      { id := license_id,
        name := l.name.getD license_id,
        category := l.category,
        permissions := l.permissions,
        conditions := l.conditions,
        limitations := l.limitations,
        obligations :=
          ((dictLookup obligation_database.licenses license_id).map
            ObligationEntry.obligations).getD [],
        compatibility_rules := l.compatibility_rules,
        is_osi_approved := spdxFlag l SpdxFlags.isOsiApproved,
        is_fsf_libre := spdxFlag l SpdxFlags.isFsfLibre,
        is_deprecated := spdxFlag l SpdxFlags.isDeprecatedLicenseId })
      licenses }

/-- The validation report. -/
structure ValidationReport where
  total_licenses : Nat
  missing_category : Nat
  missing_permissions : Nat
  missing_obligations : Nat
  missing_compatibility : Nat
  validation_errors : List String
  is_valid : Bool
deriving DecidableEq, Repr

/-- Python falsiness of an optional string field: absent or empty. -/
def falsyStr : Option String → Bool
  | none => true
  | some s => s = ""

/-- Python falsiness of an optional list field: absent or empty. -/
def falsyList : Option (List String) → Bool
  | none => true
  | some l => l.isEmpty

/-- The validator's per-record update of the running report
(the body of the loop in _validate_generated_data). -/
def validateStep (report : ValidationReport) (license_data : RawRecord) :
    ValidationReport :=
  let license_id := license_data.license_id.getD "unknown"
  let report :=
    if falsyStr license_data.category then
      { report with
        missing_category := report.missing_category + 1,
        validation_errors :=
          report.validation_errors ++ [license_id ++ ": Missing category"] }
    else report
  let report :=
    if license_data.permissions.isNone then
      { report with
        missing_permissions := report.missing_permissions + 1,
        validation_errors :=
          report.validation_errors ++ [license_id ++ ": Missing permissions"] }
    else report
  let report :=
    if falsyList license_data.obligations then
      { report with missing_obligations := report.missing_obligations + 1 }
    else report
  if license_data.compatibility_rules.isNone then
    { report with missing_compatibility := report.missing_compatibility + 1 }
  else report

/-- PolicyDataGenerator._validate_generated_data: scan all records,
accumulate the four counters and the error list, then set
is_valid = (error list length == 0). -/
def validate_generated_data (licenses : List RawRecord) :
    ValidationReport :=
  let report :=
    licenses.foldl validateStep
      { total_licenses := licenses.length,
        missing_category := 0,
        missing_permissions := 0,
        missing_obligations := 0,
        missing_compatibility := 0,
        validation_errors := [],
        is_valid := false }
  { report with is_valid := report.validation_errors.length == 0 }

/-- One work item handed to batch_analyze: a dict with the license id
(always supplied as a string by the generator) and optional text. -/
structure BatchItem where
  id : String
  text : Option String
deriving DecidableEq, Repr

/-- The two optional backend behaviours and the two json.loads calls a
batch run closes over. -/
structure Backends where
  analyzeAgent : Option AnalyzeAgent
  analyzeLoads : JsonLoads
  rulesAgent : Option RulesAgent
  rulesLoads : RulesLoads

/-- Body of analyze_with_semaphore in batch_analyze: classify the item,
derive its compatibility rules, and attach them to the record. -/
def analyze_one (B : Backends) (license_data : BatchItem) : RawRecord :=
  let license_id := license_data.id
  let license_text := license_data.text.getD ""
  let analysis := analyze_license B.analyzeAgent B.analyzeLoads
    license_id license_text
  let compatibility := extract_compatibility_rules B.rulesAgent B.rulesLoads
    license_id analysis
  { analysis with compatibility_rules := some compatibility }

/-- Status of one task of the batch. -/
inductive TaskState where
  | pending
  | running
  | done (result : RawRecord)
deriving DecidableEq, Repr

/-- Whether a task is currently in flight. -/
def taskRunning : TaskState → Bool
  | TaskState.running => true
  | _ => false

/-- Number of tasks currently in flight. -/
def countRunning (ts : List TaskState) : Nat :=
  ts.countP taskRunning

/-- State of a batch run: the semaphore's available-slot counter and the
index-stable task buffer. -/
structure BatchState where
  slots : Nat
  tasks : List TaskState

/-- Interleaving semantics of batch_analyze: a pending task may start when
a semaphore slot is free (acquiring it), and a running task may finish
(storing its result at its own index and releasing its slot).  The
parameter res gives the result the task at each index computes. -/
inductive BatchStep (res : Nat → RawRecord) :
    BatchState → BatchState → Prop
  | start (s : BatchState) (i : Nat)
      (h : s.tasks[i]? = some TaskState.pending) (hs : 0 < s.slots) :
      BatchStep res s
        { slots := s.slots - 1, tasks := s.tasks.set i TaskState.running }
  | finish (s : BatchState) (i : Nat)
      (h : s.tasks[i]? = some TaskState.running) :
      BatchStep res s
        { slots := s.slots + 1,
          tasks := s.tasks.set i (TaskState.done (res i)) }

/-- Initial state of a batch of n tasks under concurrency limit K. -/
def initState (K n : Nat) : BatchState :=
  { slots := K, tasks := List.replicate n TaskState.pending }

/-- States a batch of n tasks under limit K can reach. -/
def BatchReachable (res : Nat → RawRecord) (K n : Nat)
    (s : BatchState) : Prop :=
  Relation.ReflTransGen (BatchStep res) (initState K n) s

/-- All tasks of the batch have completed. -/
def TasksAllDone (s : BatchState) : Prop :=
  ∀ i, i < s.tasks.length → ∃ r, s.tasks[i]? = some (TaskState.done r)

/-- Results collected from the task buffer, in index order. -/
def batchResults (s : BatchState) : List RawRecord :=
  s.tasks.filterMap (fun t =>
    match t with
    | TaskState.done r => some r
    | _ => none)

/-- The per-index result function of a batch over the given items. -/
def itemRes (B : Backends) (items : List BatchItem) :
    Nat → RawRecord :=
  fun i => analyze_one B (items.getD i { id := "", text := none })

/-- Scheduler invariant: the buffer keeps its length, the free slots and
the in-flight tasks partition the semaphore's capacity, and a completed
slot holds its own task's result. -/
def BatchInv (res : Nat → RawRecord) (K n : Nat) (s : BatchState) : Prop :=
  s.tasks.length = n ∧
  s.slots + countRunning s.tasks = K ∧
  ∀ i r, s.tasks[i]? = some (TaskState.done r) → r = res i

theorem countP_replicate_pending (n : Nat) :
    countRunning (List.replicate n TaskState.pending) = 0 := by
  induction n with
  | zero => rfl
  | succ m ih =>
    simp only [countRunning, List.replicate, List.countP_cons, taskRunning,
      if_neg Bool.false_ne_true, Nat.add_zero]
    simp only [countRunning] at ih
    exact ih

theorem countP_set_add (p : TaskState → Bool) :
    ∀ (ts : List TaskState) (i : Nat) (a b : TaskState),
      ts[i]? = some a →
      (ts.set i b).countP p + (if p a then 1 else 0)
        = ts.countP p + (if p b then 1 else 0) := by
  intro ts
  induction ts with
  | nil => intro i a b h; simp at h
  | cons x xs ih =>
    intro i a b h
    cases i with
    | zero =>
      simp at h
      subst h
      simp [List.set, List.countP_cons]
      omega
    | succ j =>
      simp at h
      have := ih j a b h
      simp [List.set, List.countP_cons]
      omega

theorem batchInv_init (res : Nat → RawRecord) (K n : Nat) :
    BatchInv res K n (initState K n) := by
  refine ⟨by simp [initState], ?_, ?_⟩
  · simp [initState, countP_replicate_pending]
  · intro i r h
    rw [initState, List.getElem?_replicate] at h
    by_cases hi : i < n
    · simp [hi] at h
    · simp [hi] at h

theorem batchInv_step (res : Nat → RawRecord) (K n : Nat)
    (s s' : BatchState) (hs : BatchInv res K n s)
    (st : BatchStep res s s') : BatchInv res K n s' := by
  obtain ⟨hlen, hcount, hdone⟩ := hs
  cases st with
  | start i h hslots =>
    refine ⟨by simp [hlen], ?_, ?_⟩
    · have hadd := countP_set_add taskRunning s.tasks i
        TaskState.pending TaskState.running h
      simp [taskRunning] at hadd
      simp only [countRunning] at *
      omega
    · intro j r hj
      by_cases hij : i = j
      · subst hij
        rw [List.getElem?_set_self ((List.getElem?_eq_some_iff.mp h).1)] at hj
        simp at hj
      · rw [List.getElem?_set_ne hij] at hj
        exact hdone j r hj
  | finish i h =>
    refine ⟨by simp [hlen], ?_, ?_⟩
    · have hadd := countP_set_add taskRunning s.tasks i
        TaskState.running (TaskState.done (res i)) h
      simp [taskRunning] at hadd
      simp only [countRunning] at *
      omega
    · intro j r hj
      by_cases hij : i = j
      · subst hij
        rw [List.getElem?_set_self ((List.getElem?_eq_some_iff.mp h).1)] at hj
        simp at hj
        exact hj.symm
      · rw [List.getElem?_set_ne hij] at hj
        exact hdone j r hj

theorem batchInv_reachable (res : Nat → RawRecord) (K n : Nat)
    (s : BatchState) (h : BatchReachable res K n s) :
    BatchInv res K n s := by
  induction h with
  | refl => exact batchInv_init res K n
  | tail _ hst ih => exact batchInv_step res K n _ _ ih hst

theorem tasks_of_allDone (res : Nat → RawRecord) (K n : Nat)
    (s : BatchState) (hr : BatchReachable res K n s)
    (hd : TasksAllDone s) :
    s.tasks = (List.range n).map (fun i => TaskState.done (res i)) := by
  obtain ⟨hlen, -, hdone⟩ := batchInv_reachable res K n s hr
  apply List.ext_getElem?
  intro i
  by_cases hi : i < n
  · obtain ⟨r, hget⟩ := hd i (by omega)
    rw [hget, hdone i r hget]
    rw [List.getElem?_map, List.getElem?_range hi]
    rfl
  · rw [List.getElem?_eq_none (by omega),
      List.getElem?_eq_none (by simp; omega)]

theorem batchResults_of_allDone (res : Nat → RawRecord) (K n : Nat)
    (s : BatchState) (hr : BatchReachable res K n s)
    (hd : TasksAllDone s) :
    batchResults s = (List.range n).map res := by
  rw [batchResults, tasks_of_allDone res K n s hr hd, List.filterMap_map]
  have : ((fun t => match t with
      | TaskState.done r => some r
      | _ => none) ∘ fun i => TaskState.done (res i)) = some ∘ res := rfl
  rw [this, List.filterMap_eq_map]

theorem range_map_itemRes (B : Backends) (items : List BatchItem) :
    (List.range items.length).map (itemRes B items)
      = items.map (analyze_one B) := by
  apply List.ext_getElem
  · simp
  · intro i h1 h2
    simp only [List.getElem_map, List.getElem_range]
    rw [itemRes, List.getD_eq_getElem]

/-- The task buffer after the first m of n tasks have been run to
completion one at a time. -/
def doneUpTo (res : Nat → RawRecord) (n m : Nat) : List TaskState :=
  (List.range n).map (fun i =>
    if i < m then TaskState.done (res i) else TaskState.pending)

theorem doneUpTo_zero (res : Nat → RawRecord) (n : Nat) :
    doneUpTo res n 0 = List.replicate n TaskState.pending := by
  apply List.ext_getElem?
  intro i
  rw [doneUpTo, List.getElem?_map, List.getElem?_replicate]
  by_cases hi : i < n
  · rw [List.getElem?_range hi]
    simp [hi]
  · rw [List.getElem?_eq_none (by simp; omega)]
    simp [hi]

theorem doneUpTo_succ (res : Nat → RawRecord) (n m : Nat) (hm : m < n) :
    (doneUpTo res n m).set m (TaskState.done (res m))
      = doneUpTo res n (m + 1) := by
  apply List.ext_getElem?
  intro i
  by_cases hi : m = i
  · subst hi
    rw [List.getElem?_set_self (by simp [doneUpTo]; omega)]
    rw [doneUpTo, List.getElem?_map, List.getElem?_range hm]
    simp
  · rw [List.getElem?_set_ne hi, doneUpTo, doneUpTo,
      List.getElem?_map, List.getElem?_map]
    by_cases hin : i < n
    · rw [List.getElem?_range hin]
      have him : (i < m) ↔ (i < m + 1) := by omega
      simp [him]
    · rw [List.getElem?_eq_none (by simp; omega)]
      rfl

theorem reach_doneUpTo (res : Nat → RawRecord) (K n : Nat) (hK : 0 < K) :
    ∀ m, m ≤ n →
      BatchReachable res K n { slots := K, tasks := doneUpTo res n m } := by
  intro m
  induction m with
  | zero =>
    intro _
    rw [doneUpTo_zero]
    exact Relation.ReflTransGen.refl
  | succ m ih =>
    intro hm
    have hmn : m < n := by omega
    have hstep1 : BatchStep res
        { slots := K, tasks := doneUpTo res n m }
        { slots := K - 1,
          tasks := (doneUpTo res n m).set m TaskState.running } := by
      apply BatchStep.start
      · rw [doneUpTo, List.getElem?_map, List.getElem?_range hmn]
        simp
      · exact hK
    have hstep2 : BatchStep res
        { slots := K - 1,
          tasks := (doneUpTo res n m).set m TaskState.running }
        { slots := K - 1 + 1,
          tasks := ((doneUpTo res n m).set m TaskState.running).set m
            (TaskState.done (res m)) } := by
      apply BatchStep.finish
      rw [List.getElem?_set_self (by simp [doneUpTo]; omega)]
    have heq : ({ slots := K - 1 + 1,
                  tasks := ((doneUpTo res n m).set m TaskState.running).set m
                    (TaskState.done (res m)) } : BatchState)
        = { slots := K, tasks := doneUpTo res n (m + 1) } := by
      have h1 : K - 1 + 1 = K := by omega
      rw [h1, List.set_set, doneUpTo_succ res n m hmn]
    exact Relation.ReflTransGen.tail
      (Relation.ReflTransGen.tail (ih (by omega)) hstep1) (heq ▸ hstep2)

theorem allDone_doneUpTo (res : Nat → RawRecord) (K n : Nat) :
    TasksAllDone { slots := K, tasks := doneUpTo res n n } := by
  intro i hi
  simp only [doneUpTo, List.length_map, List.length_range] at hi
  refine ⟨res i, ?_⟩
  rw [doneUpTo, List.getElem?_map, List.getElem?_range hi]
  simp [hi]

/-- A record with only a category, as the classifier of a weak-copyleft
license would tag it. -/
def weakRecord : RawRecord :=
  { emptyRecord with
    license_id := some "WEAK-1",
    category := some "copyleft_weak" }

/-- A record classified copyleft_strong. -/
def strongRecord : RawRecord :=
  { emptyRecord with category := some "copyleft_strong" }

/-- A permissive record with an extra populated field. -/
def permRecordA : RawRecord :=
  { emptyRecord with
    license_id := some "MIT",
    category := some "permissive" }

/-- A permissive record with the same category but different other
fields. -/
def permRecordB : RawRecord :=
  { emptyRecord with
    license_id := some "BSD-2-Clause",
    category := some "permissive",
    obligations := some ["Include license text"] }

/-- A backend whose call always raises. -/
def alwaysFailAgent : AnalyzeAgent := fun _ _ => QueryResult.failure

/-- A json.loads that always fails to parse. -/
def noLoads : JsonLoads := fun _ => none

/-- The two-character reply text consisting of one empty JSON object. -/
def emptyObjectText : String := String.mk [openBraceChar, closeBraceChar]

/-- A backend that always replies with an empty JSON object. -/
def emptyObjectAgent : AnalyzeAgent := fun _ _ => QueryResult.reply emptyObjectText

/-- json.loads restricted to the reply above: the empty JSON object
parses to the dict with no keys. -/
def loadsEmptyObject : JsonLoads := fun _ => some emptyRecord

/-- A run with no AI backend configured at all. -/
def noBackends : Backends :=
  { analyzeAgent := none, analyzeLoads := fun _ => none,
    rulesAgent := none, rulesLoads := fun _ => none }

/-- A record whose only validation issue is an empty obligations list. -/
def obligationFreeRecord : RawRecord :=
  { emptyRecord with
    license_id := some "OBL-1",
    category := some "permissive",
    permissions := some defaultPermissions,
    obligations := some [],
    compatibility_rules :=
      some (get_default_compatibility_rules "OBL-1" (baseAnalysis "OBL-1")) }

/-- A record whose only validation issue is a missing category. -/
def categoryFreeRecord : RawRecord :=
  { emptyRecord with
    license_id := some "CAT-1",
    permissions := some defaultPermissions,
    obligations := some ["Include license text"],
    compatibility_rules :=
      some (get_default_compatibility_rules "CAT-1" (baseAnalysis "CAT-1")) }

theorem lookup_filterMap_recId (f : RawRecord → α) (a : String) :
    ∀ ms : List RawRecord,
      (ms.filterMap (fun l => (recId l).map (fun i => (i, f l)))).lookup a
        = (ms.find? (fun l => recId l == some a)).map f := by
  intro ms
  induction ms with
  | nil => rfl
  | cons l ms ih =>
    rw [List.filterMap_cons]
    cases hrec : recId l with
    | none =>
      rw [List.find?_cons_of_neg _ (by simp [hrec])]
      simpa using ih
    | some i =>
      by_cases hia : i = a
      · subst hia
        rw [List.find?_cons_of_pos _ (by simp [hrec])]
        simp [List.lookup]
      · rw [List.find?_cons_of_neg _ (by simp [hrec, hia])]
        have h1 : (a == i) = false := by simp [Ne.symm hia]
        simp [List.lookup, h1, ih]

theorem dictLookup_perIdEntries (f : RawRecord → α)
    (ls : List RawRecord) (a : String) :
    dictLookup (perIdEntries f ls) a
      = (ls.reverse.find? (fun l => recId l == some a)).map f := by
  rw [dictLookup, perIdEntries, ← List.filterMap_reverse,
    lookup_filterMap_recId]

theorem dictLookup_perIdEntries_isSome (f : RawRecord → α)
    (ls : List RawRecord) (a : String) :
    (dictLookup (perIdEntries f ls) a).isSome
      ↔ ∃ l ∈ ls, recId l = some a := by
  rw [dictLookup_perIdEntries, Option.isSome_map']
  simp only [List.find?_isSome, List.mem_reverse]
  constructor
  · rintro ⟨l, hmem, hp⟩
    exact ⟨l, hmem, by simpa using hp⟩
  · rintro ⟨l, hmem, hp⟩
    exact ⟨l, hmem, by simp [hp]⟩

/-- Messages the validator emits for one record: one for a falsy
category, one for falsy permissions, and none for the counted-only
obligations and compatibility issues. -/
def recordErrors (r : RawRecord) : List String :=
  (if falsyStr r.category then
    [r.license_id.getD "unknown" ++ ": Missing category"]
  else []) ++
  (if r.permissions.isNone then
    [r.license_id.getD "unknown" ++ ": Missing permissions"]
  else [])

/-- Concatenation of each record's validator messages, in scan order. -/
def errorsOf : List RawRecord → List String
  | [] => []
  | r :: rs => recordErrors r ++ errorsOf rs

theorem validateStep_fields (rep : ValidationReport) (r : RawRecord) :
    validateStep rep r =
      { total_licenses := rep.total_licenses,
        missing_category :=
          rep.missing_category + (if falsyStr r.category then 1 else 0),
        missing_permissions :=
          rep.missing_permissions + (if r.permissions.isNone then 1 else 0),
        missing_obligations :=
          rep.missing_obligations + (if falsyList r.obligations then 1 else 0),
        missing_compatibility :=
          rep.missing_compatibility +
            (if r.compatibility_rules.isNone then 1 else 0),
        validation_errors := rep.validation_errors ++ recordErrors r,
        is_valid := rep.is_valid } := by
  rw [validateStep, recordErrors]
  by_cases h1 : falsyStr r.category <;>
    by_cases h2 : r.permissions.isNone <;>
    by_cases h3 : falsyList r.obligations <;>
    by_cases h4 : r.compatibility_rules.isNone <;>
    simp [h1, h2, h3, h4]

theorem foldl_validateStep (ls : List RawRecord) :
    ∀ rep : ValidationReport,
      ls.foldl validateStep rep =
        { total_licenses := rep.total_licenses,
          missing_category := rep.missing_category +
            ls.countP (fun r => falsyStr r.category),
          missing_permissions := rep.missing_permissions +
            ls.countP (fun r => r.permissions.isNone),
          missing_obligations := rep.missing_obligations +
            ls.countP (fun r => falsyList r.obligations),
          missing_compatibility := rep.missing_compatibility +
            ls.countP (fun r => r.compatibility_rules.isNone),
          validation_errors := rep.validation_errors ++ errorsOf ls,
          is_valid := rep.is_valid } := by
  induction ls with
  | nil => intro rep; simp [errorsOf]
  | cons r rs ih =>
    intro rep
    rw [List.foldl_cons, ih (validateStep rep r), validateStep_fields]
    simp only [List.countP_cons, errorsOf]
    congr 1 <;> first
      | omega
      | rw [List.append_assoc]

theorem check_compat_symm (l1 l2 : RawRecord) :
    check_license_compatibility l1 l2 = check_license_compatibility l2 l1 := by
  unfold check_license_compatibility
  simp only []
  split_ifs <;> first | rfl | tauto

/-- The matrix cell stored for the ordered id pair (a, b): row a, column
b, read with Python-dict lookup semantics. -/
def matrixEntry (licenses : List RawRecord) (a b : String) :
    Option CompatVerdict :=
  ((dictLookup (generate_compatibility_matrix licenses).compatibility a).map
    (fun row => dictLookup row b)).getD none

theorem matrixEntry_eq_find (licenses : List RawRecord) (a b : String) :
    matrixEntry licenses a b
      = match licenses.reverse.find? (fun l => recId l == some a),
          licenses.reverse.find? (fun l => recId l == some b) with
        | some l1, some l2 => some (check_license_compatibility l1 l2)
        | _, _ => none := by
  rw [matrixEntry]
  show ((dictLookup (perIdEntries (fun l1 =>
      perIdEntries (fun l2 => check_license_compatibility l1 l2) licenses)
      licenses) a).map (fun row => dictLookup row b)).getD none = _
  rw [dictLookup_perIdEntries]
  cases licenses.reverse.find? (fun l => recId l == some a) with
  | none => rfl
  | some l1 =>
    simp only [Option.map_some', Option.getD_some]
    rw [dictLookup_perIdEntries]
    cases licenses.reverse.find? (fun l => recId l == some b) with
    | none => rfl
    | some l2 => rfl

/-- C1: the claim says an id containing "LGPL" falls back to
copyleft_weak with weak static-linking restrictions and the LGPL
obligations, and that copyleft_strong applies only to GPL ids that are
not LGPL/AGPL.  The code instead matches its "GPL" branch first, which
the substring "LGPL" also satisfies, so an LGPL id receives the full
copyleft_strong GPL treatment and the LGPL branch is unreachable. -/
theorem lgpl_id_takes_gpl_branch :
    pyIn "GPL" "LGPL-2.1" = true ∧
    (get_fallback_analysis "LGPL-2.1").category = some "copyleft_strong" ∧
    ((get_fallback_analysis "LGPL-2.1").compatibility.map
      CompatInfo.static_linking_restrictions) = some "strong" ∧
    (get_fallback_analysis "LGPL-2.1").obligations =
      some ["Disclose source code", "Include license text",
        "State changes", "Use same license for derivatives"] := by
  decide

/-- C2 counterexample: two classifications of equal category
copyleft_weak produce a matrix entry whose static_linking dimension is
review_required, not compatible. -/
theorem same_category_weak_entry_not_compatible :
    weakRecord.category = some "copyleft_weak" ∧
    matrixEntry [weakRecord] "WEAK-1" "WEAK-1" =
      some { static_linking := "review_required",
             dynamic_linking := "compatible",
             distribution := "compatible" } ∧
    ("review_required" : String) ≠ "compatible" := by
  decide

/-- C2 amended: for a pair of classifications with equal category the
matrix verdict is fully compatible exactly when that category is
permissive or copyleft_strong; an equal copyleft_weak pair gets
review_required static linking, and any other equal category gets all
three dimensions unknown. -/
theorem same_category_verdict (l1 l2 : RawRecord)
    (h : l1.category.getD "permissive" = l2.category.getD "permissive") :
    check_license_compatibility l1 l2 =
      (if l1.category.getD "permissive" = "permissive"
          ∨ l1.category.getD "permissive" = "copyleft_strong" then
        { static_linking := "compatible", dynamic_linking := "compatible",
          distribution := "compatible" }
      else if l1.category.getD "permissive" = "copyleft_weak" then
        { static_linking := "review_required",
          dynamic_linking := "compatible", distribution := "compatible" }
      else
        { static_linking := "unknown", dynamic_linking := "unknown",
          distribution := "unknown" }) := by
  unfold check_license_compatibility
  simp only []
  rw [← h]
  split_ifs <;> first | rfl | tauto

/-- C2 witness: the amended verdict rule applied to two permissive
records. -/
theorem same_category_verdict_witness :
    check_license_compatibility permRecordA permRecordB =
      { static_linking := "compatible", dynamic_linking := "compatible",
        distribution := "compatible" } :=
  (same_category_verdict permRecordA permRecordB rfl).trans (by decide)

/-- C3 counterexample: when the backend replies with an empty JSON
object, the Classifier returns the parsed record unchanged and its
category is absent. -/
theorem ai_path_category_can_be_absent :
    (analyze_license (some emptyObjectAgent) loadsEmptyObject
      "MIT" "").category = none := by
  decide

/-- C3 amended: the fallback path always sets a non-empty category, and
the AI path returns the parsed JSON object as-is (falling back on query
failure, missing JSON slice or parse failure), so only the fallback path
guarantees the category field. -/
theorem classifier_category_guarantee :
    (∀ license_id : String,
      falsyStr (get_fallback_analysis license_id).category = false) ∧
    (∀ (query : AnalyzeAgent) (loads : JsonLoads)
        (license_id license_text : String),
      analyze_license (some query) loads license_id license_text =
        match query license_id (license_text.take 3000) with
        | QueryResult.failure => get_fallback_analysis license_id
        | QueryResult.reply response =>
          match extractJson response with
          | none => get_fallback_analysis license_id
          | some json_str =>
            match loads json_str with
            | none => get_fallback_analysis license_id
            | some analysis => analysis) := by
  constructor
  · intro license_id
    unfold get_fallback_analysis
    simp only []
    split_ifs <;> rfl
  · intro query loads license_id license_text
    rfl

/-- C4 counterexample: a record whose only issue is an empty obligations
list increments the missing_obligations counter but adds no message to
the error list, contradicting one-message-per-detected-issue for all
four kinds. -/
theorem counted_issue_without_message :
    (validate_generated_data [obligationFreeRecord]).missing_obligations
        = 1 ∧
    (validate_generated_data [obligationFreeRecord]).validation_errors
        = [] ∧
    (validate_generated_data [obligationFreeRecord]).is_valid = true := by
  decide

/-- C4 amended: the validator counts all four issue kinds, but appends
one message only per missing-category and per missing-permissions issue;
is_valid holds exactly when the error list is empty; and one record
missing only its category increments missing_category by exactly 1 with
exactly one message. -/
theorem validator_characterization :
    (∀ licenses : List RawRecord,
      validate_generated_data licenses =
        { total_licenses := licenses.length,
          missing_category :=
            licenses.countP (fun r => falsyStr r.category),
          missing_permissions :=
            licenses.countP (fun r => r.permissions.isNone),
          missing_obligations :=
            licenses.countP (fun r => falsyList r.obligations),
          missing_compatibility :=
            licenses.countP (fun r => r.compatibility_rules.isNone),
          validation_errors := errorsOf licenses,
          is_valid := (errorsOf licenses).length == 0 }) ∧
    (validate_generated_data [categoryFreeRecord]).missing_category = 1 ∧
    (validate_generated_data [categoryFreeRecord]).validation_errors
      = ["CAT-1: Missing category"] := by
  refine ⟨?_, by decide, by decide⟩
  intro licenses
  simp only [validate_generated_data]
  rw [foldl_validateStep]
  simp

/-- C5 counterexample: two runs of the fallback rule deriver on the same
copyleft_strong classification but different license ids return
different rule sets, because the copyleft blocks embed the id. -/
theorem fallback_rules_not_category_alone :
    strongRecord.category = some "copyleft_strong" ∧
    get_default_compatibility_rules "GPL-2.0-only" strongRecord ≠
      get_default_compatibility_rules "GPL-3.0-only" strongRecord := by
  decide

/-- C5 amended: the fallback rule derivation is a pure function of the
pair (license id, category): among the analysis fields only the category
matters, and whenever the category is neither copyleft_strong nor
copyleft_weak the result is also independent of the license id. -/
theorem fallback_rules_category_and_id_only (id1 id2 : String)
    (a1 a2 : RawRecord)
    (h : a1.category.getD "permissive" = a2.category.getD "permissive") :
    get_default_compatibility_rules id1 a1
        = get_default_compatibility_rules id1 a2 ∧
    (a1.category.getD "permissive" ≠ "copyleft_strong" →
      a1.category.getD "permissive" ≠ "copyleft_weak" →
      get_default_compatibility_rules id1 a1
        = get_default_compatibility_rules id2 a2) := by
  constructor
  · unfold get_default_compatibility_rules
    simp only []
    rw [← h]
  · intro hs hw
    unfold get_default_compatibility_rules
    simp only []
    rw [← h]
    split_ifs <;> tauto

/-- C5 witness: the amended independence applied to two permissive
classifications that differ in their other fields. -/
theorem fallback_rules_category_and_id_only_witness :
    get_default_compatibility_rules "MIT" permRecordA
      = get_default_compatibility_rules "MIT" permRecordB :=
  (fallback_rules_category_and_id_only "MIT" "MIT"
    permRecordA permRecordB rfl).1

/-- C6: the pairwise verdict function is symmetric in its two
classifications, and consequently every stored matrix entry satisfies
matrix[A][B] = matrix[B][A] in all three dimensions, for every input
list and every pair of ids. -/
theorem compatibility_matrix_symmetric :
    (∀ l1 l2 : RawRecord,
      check_license_compatibility l1 l2
        = check_license_compatibility l2 l1) ∧
    (∀ (licenses : List RawRecord) (a b : String),
      matrixEntry licenses a b = matrixEntry licenses b a) := by
  refine ⟨check_compat_symm, ?_⟩
  intro licenses a b
  rw [matrixEntry_eq_find, matrixEntry_eq_find]
  cases licenses.reverse.find? (fun l => recId l == some a) with
  | none =>
    cases licenses.reverse.find? (fun l => recId l == some b) with
    | none => rfl
    | some l2 => rfl
  | some l1 =>
    cases licenses.reverse.find? (fun l => recId l == some b) with
    | none => rfl
    | some l2 =>
      simp only []
      rw [check_compat_symm]

/-- C7: with no AI backend configured, classification depends only on
the license id: any two texts give the same record, which is the
deterministic fallback analysis, so repeated calls agree. -/
theorem classify_without_backend_depends_only_on_id :
    ∀ (loads : JsonLoads) (license_id t1 t2 : String),
      analyze_license none loads license_id t1
          = analyze_license none loads license_id t2 ∧
      analyze_license none loads license_id t1
          = get_fallback_analysis license_id := by
  intro loads license_id t1 t2
  exact ⟨rfl, rfl⟩

/-- C8: classification is total and degrades to the deterministic
fallback in every failure mode: backend absent, backend call raising,
reply without an extractable JSON slice, or parse failure. -/
theorem analyze_license_degrades (query : AnalyzeAgent)
    (loads : JsonLoads) (license_id license_text : String) :
    (analyze_license none loads license_id license_text
        = get_fallback_analysis license_id) ∧
    (query license_id (license_text.take 3000) = QueryResult.failure →
      analyze_license (some query) loads license_id license_text
        = get_fallback_analysis license_id) ∧
    (∀ response,
      query license_id (license_text.take 3000)
          = QueryResult.reply response →
      extractJson response = none →
      analyze_license (some query) loads license_id license_text
        = get_fallback_analysis license_id) ∧
    (∀ response json_str,
      query license_id (license_text.take 3000)
          = QueryResult.reply response →
      extractJson response = some json_str →
      loads json_str = none →
      analyze_license (some query) loads license_id license_text
        = get_fallback_analysis license_id) := by
  refine ⟨rfl, ?_, ?_, ?_⟩
  · intro hfail
    rw [analyze_license, hfail]
  · intro response hreply hext
    rw [analyze_license, hreply]
    simp only [hext]
  · intro response json_str hreply hext hloads
    rw [analyze_license, hreply]
    simp only [hext, hloads]

/-- C8 witness: a backend whose call raises degrades to the fallback at
a concrete input. -/
theorem analyze_license_degrades_witness :
    analyze_license (some alwaysFailAgent) noLoads "MIT" ""
      = get_fallback_analysis "MIT" :=
  (analyze_license_degrades alwaysFailAgent noLoads "MIT" "").2.1 rfl

/-- C9: under the semaphore-gated interleaving semantics of
batch_analyze, every reachable state keeps at most K tasks in flight and
all N result slots; every completed run holds exactly the N per-item
results in input order; a completed run is always reachable; and an item
whose backend call fails contributes its deterministic fallback analysis
(with the separately derived rules attached) without aborting the
batch. -/
theorem batch_analyze_contract (B : Backends) (items : List BatchItem)
    (K : Nat) (hK : 0 < K) :
    (∀ s, BatchReachable (itemRes B items) K items.length s →
      countRunning s.tasks ≤ K ∧ s.tasks.length = items.length) ∧
    (∀ s, BatchReachable (itemRes B items) K items.length s →
      TasksAllDone s → batchResults s = items.map (analyze_one B)) ∧
    (∃ t, BatchReachable (itemRes B items) K items.length t ∧
      TasksAllDone t) ∧
    (∀ (item : BatchItem) (query : AnalyzeAgent),
      B.analyzeAgent = some query →
      query item.id ((item.text.getD "").take 3000) = QueryResult.failure →
      analyze_one B item =
        { get_fallback_analysis item.id with
          compatibility_rules :=
            some (extract_compatibility_rules B.rulesAgent B.rulesLoads
              item.id (get_fallback_analysis item.id)) }) := by
  refine ⟨?_, ?_, ?_, ?_⟩
  · intro s hr
    obtain ⟨hlen, hcount, -⟩ :=
      batchInv_reachable (itemRes B items) K items.length s hr
    exact ⟨by omega, hlen⟩
  · intro s hr hd
    rw [batchResults_of_allDone (itemRes B items) K items.length s hr hd,
      range_map_itemRes]
  · refine ⟨{ slots := K,
              tasks := doneUpTo (itemRes B items) items.length items.length },
      ?_, ?_⟩
    · exact reach_doneUpTo (itemRes B items) K items.length hK
        items.length (Nat.le_refl items.length)
    · exact allDone_doneUpTo (itemRes B items) K items.length
  · intro item query hq hfail
    simp only [analyze_one, hq, analyze_license, hfail]

/-- C9 witness: a batch of 10 items under concurrency limit 3 reaches a
completed state. -/
theorem batch_analyze_contract_witness :
    ∃ t, BatchReachable
        (itemRes noBackends
          (List.replicate 10 { id := "MIT", text := none }))
        3 (List.replicate 10 ({ id := "MIT", text := none } : BatchItem)).length
        t ∧
      TasksAllDone t :=
  (batch_analyze_contract noBackends
    (List.replicate 10 { id := "MIT", text := none }) 3 (by decide)).2.2.1

/-- C10: the matrix records the length of the whole input list as
total_licenses, while the matrix's compatibility table, the obligation
database's licenses map, and the master database's licenses map each
have an entry for an id exactly when some input record carries that id
present and non-empty; records without a truthy license_id are silently
omitted from all three per-license maps. -/
theorem per_license_outputs_keyed_by_truthy_id
    (licenses : List RawRecord) :
    (generate_compatibility_matrix licenses).total_licenses
        = licenses.length ∧
    (∀ a, (dictLookup
        (generate_compatibility_matrix licenses).compatibility a).isSome
      ↔ ∃ l ∈ licenses, recId l = some a) ∧
    (∀ a, (dictLookup
        (generate_obligation_database licenses).licenses a).isSome
      ↔ ∃ l ∈ licenses, recId l = some a) ∧
    (∀ a, (dictLookup
        (generate_master_database licenses
          (generate_obligation_database licenses)).licenses a).isSome
      ↔ ∃ l ∈ licenses, recId l = some a) := by
  refine ⟨rfl, ?_, ?_, ?_⟩
  · intro a
    exact dictLookup_perIdEntries_isSome _ licenses a
  · intro a
    exact dictLookup_perIdEntries_isSome _ licenses a
  · intro a
    exact dictLookup_perIdEntries_isSome _ licenses a
